import Mathlib

/-!
Shallow embedding of the bio-commander rules engine (programs-ecs crates:
components `game`, `players`, `grid`, `unit`; systems `join-game`,
`expand-zone`, `play`).

Machine integers of the source are modelled as `Nat`; wrapping additions on
fixed-width counters are made explicit with `% 2^w`; Rust's `saturating_sub`
on unsigned integers coincides with truncated `Nat` subtraction, and
`saturating_add` is modelled with an explicit `min` against the type bound.
`Pubkey` is modelled as an opaque comparable token, i.e. a `Nat`, with
`Pubkey::default()` as `0`.

Each Rust system entry point mutates its accounts in place and can return an
error; we model it as a pure function returning the (possibly partially
updated) component bundle together with an `Option` error.  Because every
`require!` in the source precedes all mutation inside one handler, an error
result carries exactly the input state; the theorems below make that explicit
rather than assuming it.
-/

/-- A Solana public key, modelled as an opaque comparable token. -/
abbrev Pubkey := Nat

/-- `Pubkey::default()`. -/
def pubkeyDefault : Pubkey := 0

/-- u16 modulus. -/
def u16Mod : Nat := 65536

/-- u32 modulus. -/
def u32Mod : Nat := 4294967296

/-- u32 maximum value. -/
def u32Max : Nat := 4294967295

/-- u64 maximum value. -/
def u64Max : Nat := 18446744073709551615

/-- `GameWinner` from `components/game`. -/
inductive GameWinner where
  | Player1
  | Player2
  | Draw
  | ImmuneSystem
  | Infection
deriving DecidableEq, Repr

/-- `GameState` from `components/game`. -/
inductive GameState where
  | WaitingForPlayers
  | Active
  | Paused
  | Finished (winner : GameWinner)
deriving DecidableEq, Repr

/-- The `Game` component. -/
structure Game where
  game_id : Nat
  player1 : Pubkey
  player2 : Pubkey
  current_turn : Nat
  turn_number : Nat
  map_width : Nat
  map_height : Nat
  total_zones : Nat
  game_state : GameState
  winner : Pubkey
  infection_level : Nat
  immune_response_level : Nat
  turn_time_limit : Nat
  last_turn_timestamp : Int
deriving DecidableEq, Repr

/-- `Game::is_player_turn`: `match current_turn { 1 => player1 == k, 2 => player2 == k, _ => false }`. -/
def Game.is_player_turn (g : Game) (k : Pubkey) : Bool :=
  if g.current_turn = 1 then decide (g.player1 = k)
  else if g.current_turn = 2 then decide (g.player2 = k)
  else false

/-- `Game::switch_turn`: flip `current_turn` between 1 and 2 and increment
`turn_number` (a `u32`, hence the wrap). -/
def Game.switch_turn (g : Game) : Game :=
  { g with current_turn := if g.current_turn = 1 then 2 else 1,
           turn_number := (g.turn_number + 1) % u32Mod }

/-- `Game::is_game_active`. -/
def Game.is_game_active (g : Game) : Bool :=
  decide (g.game_state = GameState.Active)

/-- `Game::end_game`: resolve the winner pubkey, set `game_state` to
`Finished { winner }` and record the winner pubkey. -/
def Game.end_game (g : Game) (winner : GameWinner) : Game :=
  let winner_pubkey :=
    match winner with
    | GameWinner.Player1 => g.player1
    | GameWinner.Player2 => g.player2
    | _ => pubkeyDefault
  { g with game_state := GameState.Finished winner, winner := winner_pubkey }

/-- `Game::update_infection_level`: `i16` arithmetic clamped to `[0, 100]`. -/
def Game.update_infection_level (g : Game) (delta : Int) : Game :=
  { g with infection_level := (max 0 (min ((g.infection_level : Int) + delta) 100)).toNat }

/-- `Game::update_immune_response_level`: `i16` arithmetic clamped to `[0, 100]`. -/
def Game.update_immune_response_level (g : Game) (delta : Int) : Game :=
  { g with immune_response_level := (max 0 (min ((g.immune_response_level : Int) + delta) 100)).toNat }

/-- `Default for Game`. -/
def gameDefault : Game where
  game_id := 0
  player1 := pubkeyDefault
  player2 := pubkeyDefault
  current_turn := 1
  turn_number := 0
  map_width := 4
  map_height := 4
  total_zones := 16
  game_state := GameState.WaitingForPlayers
  winner := pubkeyDefault
  infection_level := 20
  immune_response_level := 30
  turn_time_limit := 300
  last_turn_timestamp := 0

/-- `Faction` from `components/players`. -/
inductive Faction where
  | ImmuneSystem
  | Pathogen
deriving DecidableEq, Repr

/-- `SpecialBonus` from `components/players`. -/
inductive SpecialBonus where
  | IncreasedProduction
  | FasterMovement
  | StrongerUnits
  | BetterDefense
  | ResourceEfficiency
  | ZoneControl
deriving DecidableEq, Repr

/-- The `Player` component. -/
structure Player where
  player_id : Nat
  player_key : Pubkey
  energy_reserves : Nat
  antibody_reserves : Nat
  stem_cell_reserves : Nat
  nutrient_reserves : Nat
  controlled_zones : Nat
  total_units : Nat
  research_points : Nat
  faction : Faction
  unlocked_units : List Bool
  special_bonuses : List (Option SpecialBonus)
deriving DecidableEq, Repr

/-- `Player::can_afford`. -/
def Player.can_afford (p : Player) (energy antibodies stem_cells nutrients : Nat) : Bool :=
  decide (energy ≤ p.energy_reserves ∧ antibodies ≤ p.antibody_reserves ∧
          stem_cells ≤ p.stem_cell_reserves ∧ nutrients ≤ p.nutrient_reserves)

/-- `Player::spend_resources`: deduct only when affordable (the boolean result
is ignored at every call site in the source, so only the state is returned). -/
def Player.spend_resources (p : Player) (energy antibodies stem_cells nutrients : Nat) : Player :=
  if p.can_afford energy antibodies stem_cells nutrients then
    { p with energy_reserves := p.energy_reserves - energy,
             antibody_reserves := p.antibody_reserves - antibodies,
             stem_cell_reserves := p.stem_cell_reserves - stem_cells,
             nutrient_reserves := p.nutrient_reserves - nutrients }
  else p

/-- `Player::add_resources`: `u64::saturating_add` on each reserve. -/
def Player.add_resources (p : Player) (energy antibodies stem_cells nutrients : Nat) : Player :=
  { p with energy_reserves := min (p.energy_reserves + energy) u64Max,
           antibody_reserves := min (p.antibody_reserves + antibodies) u64Max,
           stem_cell_reserves := min (p.stem_cell_reserves + stem_cells) u64Max,
           nutrient_reserves := min (p.nutrient_reserves + nutrients) u64Max }

/-- `Player::is_unit_unlocked`: bounds-checked index into the 12-entry table
(`false` out of bounds). -/
def Player.is_unit_unlocked (p : Player) (unit_type_index : Nat) : Bool :=
  p.unlocked_units.getD unit_type_index false

/-- `Player::unlock_unit`: bounds-guarded set (`List.set` is a no-op out of
bounds, as the source's guard is). -/
def Player.unlock_unit (p : Player) (unit_type_index : Nat) : Player :=
  { p with unlocked_units := p.unlocked_units.set unit_type_index true }

/-- `Default for Player`: unit types 0 (TCell) and 6 (Virus) unlocked. -/
def playerDefault : Player where
  player_id := 1
  player_key := pubkeyDefault
  energy_reserves := 1000
  antibody_reserves := 500
  stem_cell_reserves := 100
  nutrient_reserves := 750
  controlled_zones := 0
  total_units := 0
  research_points := 0
  faction := Faction.ImmuneSystem
  unlocked_units :=
    [true, false, false, false, false, false, true, false, false, false, false, false]
  special_bonuses := [none, none, none]

/-- `ResourceType` from `components/grid`. -/
inductive ResourceType where
  | Energy
  | Antibodies
  | StemCells
  | Nutrients
deriving DecidableEq, Repr

/-- `CellContent` from `components/grid`. -/
inductive CellContent where
  | ImmuneCell (unit_id : Nat) (health : Nat)
  | Pathogen (unit_id : Nat) (health : Nat)
  | Resource (resource_type : ResourceType) (amount : Nat)
  | Obstacle
deriving DecidableEq, Repr

/-- `ZoneType` from `components/grid`. -/
inductive ZoneType where
  | Circulatory
  | Tissue
  | Lymphatic
  | Barrier
  | Organ
deriving DecidableEq, Repr

/-- `ZoneType::get_movement_cost`. -/
def ZoneType.get_movement_cost : ZoneType → Nat
  | ZoneType.Circulatory => 1
  | ZoneType.Tissue => 3
  | ZoneType.Lymphatic => 2
  | ZoneType.Barrier => 4
  | ZoneType.Organ => 2

/-- `ZoneType::get_resource_generation`: per-turn
(energy, antibodies, stem_cells, nutrients). -/
def ZoneType.get_resource_generation : ZoneType → Nat × Nat × Nat × Nat
  | ZoneType.Circulatory => (10, 5, 2, 8)
  | ZoneType.Tissue => (5, 15, 1, 10)
  | ZoneType.Lymphatic => (8, 20, 5, 5)
  | ZoneType.Barrier => (3, 25, 1, 3)
  | ZoneType.Organ => (15, 10, 3, 15)

/-- `ZoneType::get_defense_bonus`. -/
def ZoneType.get_defense_bonus : ZoneType → Nat
  | ZoneType.Circulatory => 0
  | ZoneType.Tissue => 2
  | ZoneType.Lymphatic => 3
  | ZoneType.Barrier => 5
  | ZoneType.Organ => 1

/-- The 16×16 grid `[[Option<CellContent>; 16]; 16]`, indexed as the source's
`grid[x][y]` (every read and write in the source is bounds-checked by a
preceding `require!(x < 16 && y < 16)`). -/
abbrev Grid := Nat → Nat → Option CellContent

/-- Write one grid cell. -/
def setCell (g : Grid) (x y : Nat) (v : Option CellContent) : Grid :=
  fun a b => if a = x ∧ b = y then v else g a b

/-- The `Zone` component. -/
structure Zone where
  zone_id : Nat
  zone_type : ZoneType
  x : Nat
  y : Nat
  owner : Pubkey
  grid : Grid
  energy : Nat
  antibodies : Nat
  stem_cells : Nat
  nutrients : Nat
  unit_count : Nat
  is_border_zone : Bool
  is_controlled : Bool
  connected_zones : List (Option Nat)

/-- `Default for Zone`. -/
def zoneDefault : Zone where
  zone_id := 0
  zone_type := ZoneType.Tissue
  x := 0
  y := 0
  owner := pubkeyDefault
  grid := fun _ _ => none
  energy := 100
  antibodies := 50
  stem_cells := 10
  nutrients := 75
  unit_count := 0
  is_border_zone := false
  is_controlled := false
  connected_zones := [none, none, none, none]

/-- `UnitType` from `components/unit`. -/
inductive UnitType where
  | TCell
  | BCell
  | Macrophage
  | NeutrophilCell
  | DendriticCell
  | NaturalKillerCell
  | Virus
  | Bacteria
  | Fungus
  | Parasite
  | CancerCell
  | Toxin
deriving DecidableEq, Repr

/-- `SpecialAbility` from `components/unit`. -/
inductive SpecialAbility where
  | AntibodyProduction
  | Phagocytosis
  | CytokineRelease
  | MemoryResponse
  | Infiltration
  | ZoneHealing
  | Replication
  | Mutation
  | ToxinRelease
  | ImmuneEvasion
  | Metastasis
  | ResourceDrain
deriving DecidableEq, Repr

/-- Base stats `(health, attack, defense, movement_range, energy_cost)`. -/
structure BaseStats where
  health : Nat
  attack : Nat
  defense : Nat
  movement_range : Nat
  energy_cost : Nat
deriving DecidableEq, Repr

/-- `UnitType::get_base_stats`. -/
def UnitType.get_base_stats : UnitType → BaseStats
  | UnitType.TCell => ⟨80, 15, 10, 3, 20⟩
  | UnitType.BCell => ⟨60, 8, 8, 2, 25⟩
  | UnitType.Macrophage => ⟨120, 20, 15, 2, 30⟩
  | UnitType.NeutrophilCell => ⟨70, 18, 8, 4, 15⟩
  | UnitType.DendriticCell => ⟨50, 5, 12, 3, 35⟩
  | UnitType.NaturalKillerCell => ⟨90, 25, 10, 3, 40⟩
  | UnitType.Virus => ⟨40, 12, 5, 4, 10⟩
  | UnitType.Bacteria => ⟨60, 15, 8, 2, 15⟩
  | UnitType.Fungus => ⟨80, 10, 12, 1, 20⟩
  | UnitType.Parasite => ⟨70, 18, 6, 3, 25⟩
  | UnitType.CancerCell => ⟨100, 20, 10, 2, 30⟩
  | UnitType.Toxin => ⟨30, 30, 2, 5, 5⟩

/-- `UnitType::is_immune_cell`. -/
def UnitType.is_immune_cell (t : UnitType) : Bool :=
  match t with
  | UnitType.TCell | UnitType.BCell | UnitType.Macrophage
  | UnitType.NeutrophilCell | UnitType.DendriticCell
  | UnitType.NaturalKillerCell => true
  | _ => false

/-- The `Unit` component (named `BioUnit` here because `Unit` is taken by the
Lean prelude). -/
structure BioUnit where
  unit_id : Nat
  unit_type : UnitType
  zone_id : Nat
  x : Nat
  y : Nat
  health : Nat
  max_health : Nat
  attack : Nat
  defense : Nat
  movement_range : Nat
  owner : Pubkey
  special_abilities : List (Option SpecialAbility)
  is_active : Bool
  energy_cost : Nat
deriving DecidableEq, Repr

/-- `Default for Unit` (a TCell with its base stats). -/
def unitDefault : BioUnit where
  unit_id := 0
  unit_type := UnitType.TCell
  zone_id := 0
  x := 0
  y := 0
  health := 80
  max_health := 80
  attack := 15
  defense := 10
  movement_range := 3
  owner := pubkeyDefault
  special_abilities :=
    [some SpecialAbility.CytokineRelease, some SpecialAbility.MemoryResponse, none]
  is_active := true
  energy_cost := 20

/-! ## System `join-game` -/

/-- `JoinGameError` from `systems/join-game`. -/
inductive JoinGameError where
  | GameFull
  | PlayerAlreadyInGame
  | GameAlreadyStarted
  | InvalidFaction
deriving DecidableEq, Repr

/-- The `join_game` component bundle. -/
structure JoinComponents where
  game : Game
  player : Player
  starting_zone : Option Zone

/-- `join_game::execute`.  `authority` is the acting identity; `faction_arg`
is the `faction: u8` argument (0 = ImmuneSystem, 1 = Pathogen).  The seat
assignment mutates `game` before the faction selector is parsed, so an
`InvalidFaction` error carries the already-assigned seat, exactly as the
in-place source does. -/
def join_game_execute (s : JoinComponents) (authority : Pubkey) (faction_arg : Nat) :
    JoinComponents × Option JoinGameError :=
  if ¬ (s.game.game_state = GameState.WaitingForPlayers) then
    (s, some JoinGameError.GameAlreadyStarted)
  else if ¬ (s.game.player1 ≠ authority ∧ s.game.player2 ≠ authority) then
    (s, some JoinGameError.PlayerAlreadyInGame)
  else
    -- seat assignment
    let seat : Option (Game × Nat) :=
      if s.game.player1 = pubkeyDefault then some ({ s.game with player1 := authority }, 1)
      else if s.game.player2 = pubkeyDefault then some ({ s.game with player2 := authority }, 2)
      else none
    match seat with
    | none => (s, some JoinGameError.GameFull)
    | some (game1, player_id) =>
      match (if faction_arg = 0 then some Faction.ImmuneSystem
             else if faction_arg = 1 then some Faction.Pathogen else none) with
      | none => ({ s with game := game1 }, some JoinGameError.InvalidFaction)
      | some faction =>
        let p1 := { s.player with player_id := player_id, player_key := authority,
                                  faction := faction }
        let p2 :=
          match faction with
          | Faction.ImmuneSystem =>
            { p1 with energy_reserves := 1200, antibody_reserves := 800,
                      stem_cell_reserves := 150, nutrient_reserves := 900 }
          | Faction.Pathogen =>
            { p1 with energy_reserves := 1500, antibody_reserves := 200,
                      stem_cell_reserves := 50, nutrient_reserves := 1200 }
        let p3 :=
          match faction with
          | Faction.ImmuneSystem => ((p2.unlock_unit 0).unlock_unit 1).unlock_unit 2
          | Faction.Pathogen => ((p2.unlock_unit 6).unlock_unit 7).unlock_unit 8
        if game1.player1 ≠ pubkeyDefault ∧ game1.player2 ≠ pubkeyDefault then
          let game2 := { game1 with game_state := GameState.Active, current_turn := 1 }
          match s.starting_zone with
          | some zone =>
            let zone' := { zone with
              zone_id := 0, x := 2, y := 2, owner := authority, is_controlled := true,
              zone_type := match faction with
                           | Faction.ImmuneSystem => ZoneType.Lymphatic
                           | Faction.Pathogen => ZoneType.Tissue }
            let p4 := { p3 with controlled_zones := 1 }
            ({ game := game2, player := p4, starting_zone := some zone' }, none)
          | none => ({ game := game2, player := p3, starting_zone := none }, none)
        else
          ({ game := game1, player := p3, starting_zone := s.starting_zone }, none)

/-! ## System `expand-zone` -/

/-- `ExpandZoneError` from `systems/expand-zone`. -/
inductive ExpandZoneError where
  | NotInGame
  | NotActive
  | NotPlayersTurn
  | InsufficientResources
  | ZoneAlreadyControlled
  | ZoneNotAdjacent
  | InvalidZoneType
  | ExpansionNotPossible
  | MaxZonesReached
deriving DecidableEq, Repr

/-- `ExpansionType` from `systems/expand-zone`. -/
inductive ExpansionType where
  | InfectionSpread
  | ImmuneResponse
  | CreateNewZone
  | ConquerZone
deriving DecidableEq, Repr

/-- The `expand_zone` component bundle. -/
structure ExpandComponents where
  game : Game
  player : Player
  source_zone : Zone
  target_zone : Zone

/-- `expand_zone`'s `Args`. -/
structure ExpandArgs where
  expansion_type : ExpansionType
  new_zone_type : Nat
deriving DecidableEq, Repr

/-- A four-resource cost tuple `(energy, antibodies, stem_cells, nutrients)`. -/
structure Cost where
  energy : Nat
  antibodies : Nat
  stem_cells : Nat
  nutrients : Nat
deriving DecidableEq, Repr

/-- `is_adjacent_zone`: `|x1-x2|`, `|y1-y2|` over `i16`, adjacency when one
delta is 1 and the other 0. -/
def is_adjacent_zone (zone1 zone2 : Zone) : Bool :=
  let dx := ((zone1.x : Int) - (zone2.x : Int)).natAbs
  let dy := ((zone1.y : Int) - (zone2.y : Int)).natAbs
  decide ((dx = 1 ∧ dy = 0) ∨ (dx = 0 ∧ dy = 1))

/-- `calculate_infection_spread_cost`: base 100 times target resistance,
`(2c, 0, 0, c)`. -/
def calculate_infection_spread_cost (_source target : Zone) : Cost :=
  let base_cost := 100
  let zone_resistance : Nat :=
    match target.zone_type with
    | ZoneType.Barrier => 3
    | ZoneType.Lymphatic => 2
    | _ => 1
  let adjusted_cost := base_cost * zone_resistance
  ⟨adjusted_cost * 2, 0, 0, adjusted_cost⟩

/-- `calculate_immune_response_cost`: base 80 times target difficulty,
`(c, 2c, c/4, c/2)`. -/
def calculate_immune_response_cost (_source target : Zone) : Cost :=
  let base_cost := 80
  let zone_difficulty : Nat :=
    match target.zone_type with
    | ZoneType.Tissue => 2
    | ZoneType.Organ => 3
    | _ => 1
  let adjusted_cost := base_cost * zone_difficulty
  ⟨adjusted_cost, adjusted_cost * 2, adjusted_cost / 4, adjusted_cost / 2⟩

/-- The source's `(base_cost as f64 * faction_modifier) as u64` for zone
creation.  The modifier is 1.0 for ImmuneSystem and 1.2 for Pathogen.  The
f64 literal `1.2` equals `5404319552844595 / 2^52 = 6/5 - 1/(5*2^52)`; for
every base cost `b` in the table (all multiples of 5, `b ≤ 500`) the product
`b * 1.2f64` rounds to nearest back to the exact integer `6*b/5` (the error
`b/(5*2^52)` is below half an ulp), so the truncating cast yields `6*b/5`. -/
def faction_adjusted_cost (base_cost : Nat) (faction : Faction) : Nat :=
  match faction with
  | Faction.ImmuneSystem => base_cost
  | Faction.Pathogen => base_cost * 6 / 5

/-- `calculate_zone_creation_cost`: base by zone type, faction-adjusted,
split `(c, c/2, c/10, c/3)`. -/
def calculate_zone_creation_cost (zone_type : ZoneType) (faction : Faction) : Cost :=
  let base_cost : Nat :=
    match zone_type with
    | ZoneType.Circulatory => 200
    | ZoneType.Tissue => 150
    | ZoneType.Lymphatic => 300
    | ZoneType.Barrier => 400
    | ZoneType.Organ => 500
  let adjusted_cost := faction_adjusted_cost base_cost faction
  ⟨adjusted_cost, adjusted_cost / 2, adjusted_cost / 10, adjusted_cost / 3⟩

/-- `calculate_conquest_cost`: base 250 times target defense multiplier,
`(3c, c, c/5, 2c)`. -/
def calculate_conquest_cost (_source target : Zone) : Cost :=
  let base_cost := 250
  let defense_multiplier : Nat :=
    match target.zone_type with
    | ZoneType.Barrier => 2
    | ZoneType.Organ => 3
    | ZoneType.Lymphatic => 2
    | _ => 1
  let adjusted_cost := base_cost * defense_multiplier
  ⟨adjusted_cost * 3, adjusted_cost, adjusted_cost / 5, adjusted_cost * 2⟩

/-- `infection_spread_expansion`. -/
def infection_spread_expansion (s : ExpandComponents) :
    ExpandComponents × Option ExpandZoneError :=
  if ¬ (s.player.faction = Faction.Pathogen) then
    (s, some ExpandZoneError.ExpansionNotPossible)
  else if ¬ (s.source_zone.owner = s.player.player_key) then
    (s, some ExpandZoneError.NotInGame)
  else if ¬ (is_adjacent_zone s.source_zone s.target_zone = true) then
    (s, some ExpandZoneError.ZoneNotAdjacent)
  else
    let c := calculate_infection_spread_cost s.source_zone s.target_zone
    if ¬ (s.player.can_afford c.energy c.antibodies c.stem_cells c.nutrients = true) then
      (s, some ExpandZoneError.InsufficientResources)
    else
      let p := s.player.spend_resources c.energy c.antibodies c.stem_cells c.nutrients
      let g := s.game.update_infection_level 5
      if s.target_zone.owner = pubkeyDefault then
        ({ game := g,
           player := { p with controlled_zones := (p.controlled_zones + 1) % u16Mod },
           source_zone := s.source_zone,
           target_zone := { s.target_zone with owner := p.player_key, is_controlled := true,
                                               zone_type := ZoneType.Tissue } }, none)
      else
        ({ game := g, player := p, source_zone := s.source_zone,
           target_zone := { s.target_zone with energy := s.target_zone.energy - 50,
                                               nutrients := s.target_zone.nutrients - 30 } },
         none)

/-- `immune_response_expansion`. -/
def immune_response_expansion (s : ExpandComponents) :
    ExpandComponents × Option ExpandZoneError :=
  if ¬ (s.player.faction = Faction.ImmuneSystem) then
    (s, some ExpandZoneError.ExpansionNotPossible)
  else if ¬ (s.source_zone.owner = s.player.player_key) then
    (s, some ExpandZoneError.NotInGame)
  else if ¬ (is_adjacent_zone s.source_zone s.target_zone = true) then
    (s, some ExpandZoneError.ZoneNotAdjacent)
  else
    let c := calculate_immune_response_cost s.source_zone s.target_zone
    if ¬ (s.player.can_afford c.energy c.antibodies c.stem_cells c.nutrients = true) then
      (s, some ExpandZoneError.InsufficientResources)
    else
      let p := s.player.spend_resources c.energy c.antibodies c.stem_cells c.nutrients
      let g := s.game.update_immune_response_level 5
      if s.target_zone.owner = pubkeyDefault then
        ({ game := g,
           player := { p with controlled_zones := (p.controlled_zones + 1) % u16Mod },
           source_zone := s.source_zone,
           target_zone := { s.target_zone with owner := p.player_key, is_controlled := true,
                                               zone_type := ZoneType.Lymphatic } }, none)
      else
        ({ game := g, player := p, source_zone := s.source_zone,
           target_zone := { s.target_zone with
             antibodies := min ((s.target_zone.antibodies + 100) % u32Mod) 1000,
             energy := min ((s.target_zone.energy + 50) % u32Mod) 1000 } }, none)

/-- The zone-type selector parse in `create_new_zone` (0–4, otherwise an
`InvalidZoneType` error). -/
def zoneTypeOfIndex (i : Nat) : Option ZoneType :=
  if i = 0 then some ZoneType.Circulatory
  else if i = 1 then some ZoneType.Tissue
  else if i = 2 then some ZoneType.Lymphatic
  else if i = 3 then some ZoneType.Barrier
  else if i = 4 then some ZoneType.Organ
  else none

/-- `create_new_zone`. -/
def create_new_zone (s : ExpandComponents) (zone_type_index : Nat) :
    ExpandComponents × Option ExpandZoneError :=
  if ¬ (s.game.total_zones < 64) then
    (s, some ExpandZoneError.MaxZonesReached)
  else if ¬ (s.target_zone.owner = pubkeyDefault) then
    (s, some ExpandZoneError.ZoneAlreadyControlled)
  else
    match zoneTypeOfIndex zone_type_index with
    | none => (s, some ExpandZoneError.InvalidZoneType)
    | some zone_type =>
      let c := calculate_zone_creation_cost zone_type s.player.faction
      if ¬ (s.player.can_afford c.energy c.antibodies c.stem_cells c.nutrients = true) then
        (s, some ExpandZoneError.InsufficientResources)
      else
        let p := s.player.spend_resources c.energy c.antibodies c.stem_cells c.nutrients
        let gen := zone_type.get_resource_generation
        let t' := { s.target_zone with
          zone_id := s.game.total_zones, zone_type := zone_type,
          owner := p.player_key, is_controlled := true, is_border_zone := true,
          energy := gen.1 * 5, antibodies := gen.2.1 * 5,
          stem_cells := gen.2.2.1 * 5, nutrients := gen.2.2.2 * 5 }
        let g := { s.game with total_zones := (s.game.total_zones + 1) % u32Mod }
        let p' := { p with controlled_zones := (p.controlled_zones + 1) % u16Mod }
        ({ game := g, player := p', source_zone := s.source_zone, target_zone := t' }, none)

/-- `conquer_zone`. -/
def conquer_zone (s : ExpandComponents) : ExpandComponents × Option ExpandZoneError :=
  if ¬ (s.source_zone.owner = s.player.player_key) then
    (s, some ExpandZoneError.NotInGame)
  else if ¬ (s.target_zone.owner ≠ pubkeyDefault ∧
             s.target_zone.owner ≠ s.player.player_key) then
    (s, some ExpandZoneError.ZoneAlreadyControlled)
  else if ¬ (is_adjacent_zone s.source_zone s.target_zone = true) then
    (s, some ExpandZoneError.ZoneNotAdjacent)
  else
    let c := calculate_conquest_cost s.source_zone s.target_zone
    if ¬ (s.player.can_afford c.energy c.antibodies c.stem_cells c.nutrients = true) then
      (s, some ExpandZoneError.InsufficientResources)
    else
      let p := s.player.spend_resources c.energy c.antibodies c.stem_cells c.nutrients
      let t' := { s.target_zone with
        owner := p.player_key, is_controlled := true,
        energy := s.target_zone.energy / 2,
        nutrients := s.target_zone.nutrients / 2,
        unit_count := s.target_zone.unit_count / 2 }
      let p' := { p with controlled_zones := (p.controlled_zones + 1) % u16Mod }
      let g :=
        match p.faction with
        | Faction.Pathogen => s.game.update_infection_level 3
        | Faction.ImmuneSystem => s.game.update_immune_response_level 3
      ({ game := g, player := p', source_zone := s.source_zone, target_zone := t' }, none)

/-- `expand_zone::execute`: the caller-facing wrapper with the turn /
active-game / identity checks, dispatching on the expansion type. -/
def expand_zone_execute (args : ExpandArgs) (s : ExpandComponents) (authority : Pubkey) :
    ExpandComponents × Option ExpandZoneError :=
  if ¬ (s.game.is_player_turn authority = true) then
    (s, some ExpandZoneError.NotPlayersTurn)
  else if ¬ (s.game.is_game_active = true) then
    (s, some ExpandZoneError.NotActive)
  else if ¬ (s.player.player_key = authority) then
    (s, some ExpandZoneError.NotInGame)
  else
    match args.expansion_type with
    | ExpansionType.InfectionSpread => infection_spread_expansion s
    | ExpansionType.ImmuneResponse => immune_response_expansion s
    | ExpansionType.CreateNewZone => create_new_zone s args.new_zone_type
    | ExpansionType.ConquerZone => conquer_zone s

/-! ## System `play` -/

/-- `BioCommanderError` from `systems/play`. -/
inductive BioCommanderError where
  | NotInGame
  | NotActive
  | PositionOutOfBounds
  | PositionOccupied
  | NotPlayersTurn
  | InsufficientResources
  | UnitNotFound
  | InvalidMove
  | UnitTypeNotUnlocked
  | ZoneNotControlled
  | InvalidAction
deriving DecidableEq, Repr

/-- `ActionType` from `systems/play`. -/
inductive ActionType where
  | SpawnUnit
  | MoveUnit
  | AttackPosition
  | UseSpecialAbility
  | EndTurn
deriving DecidableEq, Repr

/-- The `play` component bundle (`unit` is optional). -/
structure PlayComponents where
  game : Game
  player : Player
  zone : Zone
  unit : Option BioUnit

/-- `play`'s `Args`. -/
structure PlayArgs where
  action : ActionType
  x : Nat
  y : Nat
  unit_type : Nat
  ability_index : Nat
deriving DecidableEq, Repr

/-- The unit-type selector parse in `spawn_unit` (0–11, otherwise an
`InvalidAction` error). -/
def unitTypeOfIndex (i : Nat) : Option UnitType :=
  if i = 0 then some UnitType.TCell
  else if i = 1 then some UnitType.BCell
  else if i = 2 then some UnitType.Macrophage
  else if i = 3 then some UnitType.NeutrophilCell
  else if i = 4 then some UnitType.DendriticCell
  else if i = 5 then some UnitType.NaturalKillerCell
  else if i = 6 then some UnitType.Virus
  else if i = 7 then some UnitType.Bacteria
  else if i = 8 then some UnitType.Fungus
  else if i = 9 then some UnitType.Parasite
  else if i = 10 then some UnitType.CancerCell
  else if i = 11 then some UnitType.Toxin
  else none

/-- The source's `(base_cost as f64 * zone_multiplier) as u64` in
`calculate_spawn_cost`.  The multiplier is 0.8 for Lymphatic, 1.5 for
Barrier, 1.0 otherwise.  `1.5` and `1.0` are exact in f64 and the products
with `u16` base costs are exact, so those cases truncate to `3*b/2` and `b`.
The f64 literal `0.8` equals `3602879701896397 / 2^52 = 4/5 + 1/(5*2^52)`;
for every `b < 2^16` the product `b * 0.8f64` lies within half an ulp of the
exact `4*b/5` and rounds back to it when `4*b/5` is an integer, and in any
case truncates to `4*b/5` rounded down, so the cast yields `4*b/5`. -/
def zone_adjusted_cost (base_cost : Nat) (zone_type : ZoneType) : Nat :=
  match zone_type with
  | ZoneType.Lymphatic => base_cost * 4 / 5
  | ZoneType.Barrier => base_cost * 3 / 2
  | _ => base_cost

/-- `calculate_spawn_cost`: zone-adjusted base energy cost, split
`(c, c/2, c/10, c/3)` for immune cells and `(2c, 0, 0, c)` for pathogens. -/
def calculate_spawn_cost (unit_type : UnitType) (zone_type : ZoneType) : Cost :=
  let base_cost := unit_type.get_base_stats.energy_cost
  let adjusted_cost := zone_adjusted_cost base_cost zone_type
  if unit_type.is_immune_cell then
    ⟨adjusted_cost, adjusted_cost / 2, adjusted_cost / 10, adjusted_cost / 3⟩
  else
    ⟨adjusted_cost * 2, 0, 0, adjusted_cost⟩

/-- Result of `spawn_unit` (`&mut Player`, `&mut Zone`, `Result<()>`). -/
structure SpawnResult where
  player : Player
  zone : Zone
  err : Option BioCommanderError

/-- `spawn_unit`. -/
def spawn_unit (player : Player) (zone : Zone) (unit_type_index x y : Nat) : SpawnResult :=
  if ¬ (x < 16 ∧ y < 16) then ⟨player, zone, some BioCommanderError.PositionOutOfBounds⟩
  else if ¬ ((zone.grid x y).isNone = true) then
    ⟨player, zone, some BioCommanderError.PositionOccupied⟩
  else if ¬ (zone.owner = player.player_key) then
    ⟨player, zone, some BioCommanderError.ZoneNotControlled⟩
  else if ¬ (player.is_unit_unlocked unit_type_index = true) then
    ⟨player, zone, some BioCommanderError.UnitTypeNotUnlocked⟩
  else
    match unitTypeOfIndex unit_type_index with
    | none => ⟨player, zone, some BioCommanderError.InvalidAction⟩
    | some unit_type =>
      let health := unit_type.get_base_stats.health
      let c := calculate_spawn_cost unit_type zone.zone_type
      if ¬ (player.can_afford c.energy c.antibodies c.stem_cells c.nutrients = true) then
        ⟨player, zone, some BioCommanderError.InsufficientResources⟩
      else
        let p := player.spend_resources c.energy c.antibodies c.stem_cells c.nutrients
        let unit_id := (zone.unit_count + zone.zone_id * 1000) % u32Mod
        let cell :=
          if unit_type.is_immune_cell then CellContent.ImmuneCell unit_id health
          else CellContent.Pathogen unit_id health
        let z := { zone with grid := setCell zone.grid x y (some cell),
                             unit_count := (zone.unit_count + 1) % u16Mod }
        let p' := { p with total_units := (p.total_units + 1) % u16Mod }
        ⟨p', z, none⟩

/-- Result of `move_unit` (`&mut Unit`, `&mut Zone`, `Result<()>`). -/
structure MoveResult where
  unit : BioUnit
  zone : Zone
  err : Option BioCommanderError

/-- `move_unit`.  The distance is computed in `i16` and cast to `u8`, hence
the `% 256`. -/
def move_unit (unit : BioUnit) (zone : Zone) (new_x new_y : Nat) : MoveResult :=
  if ¬ (new_x < 16 ∧ new_y < 16) then ⟨unit, zone, some BioCommanderError.PositionOutOfBounds⟩
  else if ¬ ((zone.grid new_x new_y).isNone = true) then
    ⟨unit, zone, some BioCommanderError.PositionOccupied⟩
  else
    let distance := (((new_x : Int) - (unit.x : Int)).natAbs +
                     ((new_y : Int) - (unit.y : Int)).natAbs) % 256
    if ¬ (distance ≤ unit.movement_range) then
      ⟨unit, zone, some BioCommanderError.InvalidMove⟩
    else
      let cell_content :=
        if unit.unit_type.is_immune_cell then CellContent.ImmuneCell unit.unit_id unit.health
        else CellContent.Pathogen unit.unit_id unit.health
      let z1 := { zone with grid := setCell zone.grid unit.x unit.y none }
      let z2 := { z1 with grid := setCell z1.grid new_x new_y (some cell_content) }
      ⟨{ unit with x := new_x, y := new_y }, z2, none⟩

/-- Result of `attack_position` (`&mut Zone`, `Result<()>`). -/
structure AttackResult where
  zone : Zone
  err : Option BioCommanderError

/-- `attack_position`: saturating damage and health, kill removes the cell
and saturating-decrements `unit_count`. -/
def attack_position (unit : BioUnit) (zone : Zone) (target_x target_y : Nat) : AttackResult :=
  if ¬ (target_x < 16 ∧ target_y < 16) then
    ⟨zone, some BioCommanderError.PositionOutOfBounds⟩
  else
    match zone.grid target_x target_y with
    | some (CellContent.ImmuneCell uid health) =>
      let damage := unit.attack - zone.zone_type.get_defense_bonus
      let health' := health - damage
      if health' = 0 then
        ⟨{ zone with grid := setCell zone.grid target_x target_y none,
                     unit_count := zone.unit_count - 1 }, none⟩
      else
        ⟨{ zone with
             grid := setCell zone.grid target_x target_y
               (some (CellContent.ImmuneCell uid health')) }, none⟩
    | some (CellContent.Pathogen uid health) =>
      let damage := unit.attack - zone.zone_type.get_defense_bonus
      let health' := health - damage
      if health' = 0 then
        ⟨{ zone with grid := setCell zone.grid target_x target_y none,
                     unit_count := zone.unit_count - 1 }, none⟩
      else
        ⟨{ zone with
             grid := setCell zone.grid target_x target_y
               (some (CellContent.Pathogen uid health')) }, none⟩
    | some _ => ⟨zone, some BioCommanderError.InvalidAction⟩
    | none => ⟨zone, none⟩

/-- Result of `use_special_ability`. -/
structure AbilityResult where
  unit : BioUnit
  player : Player
  zone : Zone
  err : Option BioCommanderError

/-- `use_special_ability`: bounds-checked ability slot lookup, four
implemented abilities, the rest no-ops; never fails. -/
def use_special_ability (unit : BioUnit) (player : Player) (zone : Zone)
    (ability_index : Nat) : AbilityResult :=
  match unit.special_abilities.getD ability_index none with
  | some SpecialAbility.AntibodyProduction =>
    ⟨unit, player.add_resources 0 50 0 0, zone, none⟩
  | some SpecialAbility.Phagocytosis =>
    ⟨{ unit with health := min ((unit.health + 20) % u16Mod) unit.max_health },
     player.add_resources 10 0 0 5, zone, none⟩
  | some SpecialAbility.Replication =>
    ⟨unit, { player with total_units := (player.total_units + 1) % u16Mod },
     { zone with unit_count := (zone.unit_count + 1) % u16Mod }, none⟩
  | some SpecialAbility.ZoneHealing =>
    ⟨unit, player,
     { zone with energy := min ((zone.energy + 50) % u32Mod) 1000,
                 nutrients := min ((zone.nutrients + 30) % u32Mod) 1000 }, none⟩
  | _ => ⟨unit, player, zone, none⟩

/-- Result of `end_turn`. -/
structure TurnResult where
  game : Game
  player : Player
  zone : Zone
  err : Option BioCommanderError

/-- `end_turn`: per-turn yield for an owned zone (player reserves saturate,
zone counters cap at 1000 / 100), then `switch_turn`; never fails. -/
def end_turn (game : Game) (player : Player) (zone : Zone) : TurnResult :=
  let gen := zone.zone_type.get_resource_generation
  if zone.owner = player.player_key then
    ⟨game.switch_turn,
     player.add_resources gen.1 gen.2.1 gen.2.2.1 gen.2.2.2,
     { zone with energy := min ((zone.energy + gen.1) % u32Mod) 1000,
                 antibodies := min ((zone.antibodies + gen.2.1) % u32Mod) 1000,
                 stem_cells := min ((zone.stem_cells + gen.2.2.1) % u32Mod) 100,
                 nutrients := min ((zone.nutrients + gen.2.2.2) % u32Mod) 1000 }, none⟩
  else ⟨game.switch_turn, player, zone, none⟩

/-- The win threshold `(game.total_zones * 3 / 4) as u16`: `u32` arithmetic
followed by a truncating cast to `u16`. -/
def win_threshold (g : Game) : Nat :=
  (g.total_zones * 3 % u32Mod / 4) % u16Mod

/-- `check_win_conditions`: declare the acting player the winner when their
controlled-zone count reaches the threshold. -/
def check_win_conditions (game : Game) (player : Player) : Game :=
  if win_threshold game ≤ player.controlled_zones then
    let winner :=
      if player.player_id = 1 then GameWinner.Player1
      else if player.player_id = 2 then GameWinner.Player2
      else GameWinner.Draw
    game.end_game winner
  else game

/-- `play::execute`: entry checks, action dispatch, then
`check_win_conditions` (reached only when the action succeeded, since `?`
propagates the action's error). -/
def play_execute (args : PlayArgs) (s : PlayComponents) (authority : Pubkey) :
    PlayComponents × Option BioCommanderError :=
  if ¬ (s.game.is_player_turn authority = true) then
    (s, some BioCommanderError.NotPlayersTurn)
  else if ¬ (s.game.is_game_active = true) then
    (s, some BioCommanderError.NotActive)
  else if ¬ (s.player.player_key = authority) then
    (s, some BioCommanderError.NotInGame)
  else
    let step : PlayComponents × Option BioCommanderError :=
      match args.action with
      | ActionType.SpawnUnit =>
        let r := spawn_unit s.player s.zone args.unit_type args.x args.y
        ({ s with player := r.player, zone := r.zone }, r.err)
      | ActionType.MoveUnit =>
        match s.unit with
        | some u =>
          let r := move_unit u s.zone args.x args.y
          ({ s with unit := some r.unit, zone := r.zone }, r.err)
        | none => (s, none)
      | ActionType.AttackPosition =>
        match s.unit with
        | some u =>
          let r := attack_position u s.zone args.x args.y
          ({ s with zone := r.zone }, r.err)
        | none => (s, none)
      | ActionType.UseSpecialAbility =>
        match s.unit with
        | some u =>
          let r := use_special_ability u s.player s.zone args.ability_index
          ({ s with unit := some r.unit, player := r.player, zone := r.zone }, r.err)
        | none => (s, none)
      | ActionType.EndTurn =>
        let r := end_turn s.game s.player s.zone
        ({ s with game := r.game, player := r.player, zone := r.zone }, r.err)
    match step.2 with
    | some e => (step.1, some e)
    | none =>
      ({ step.1 with game := check_win_conditions step.1.game step.1.player }, none)

/-! ## Theorems -/

/-- C8: the adjacency predicate used by all expansion variants is symmetric
and holds exactly when the Manhattan distance between the zones' (x, y)
coordinates is 1; in particular (0,0)–(1,0) are adjacent, (0,0)–(1,1) are
not (those two instances follow by specialising the ↔ and are checked
directly in the development via the decidable instances). -/
theorem is_adjacent_zone_symm_manhattan (z1 z2 : Zone) :
    is_adjacent_zone z1 z2 = is_adjacent_zone z2 z1 ∧
    (is_adjacent_zone z1 z2 = true ↔
      ((z1.x : Int) - (z2.x : Int)).natAbs + ((z1.y : Int) - (z2.y : Int)).natAbs = 1) ∧
    is_adjacent_zone { zoneDefault with x := 0, y := 0 } { zoneDefault with x := 1, y := 0 } =
      true ∧
    is_adjacent_zone { zoneDefault with x := 0, y := 0 } { zoneDefault with x := 1, y := 1 } =
      false := by
  refine ⟨?_, ?_, by decide, by decide⟩
  · have hx : ((z1.x : Int) - (z2.x : Int)).natAbs = ((z2.x : Int) - (z1.x : Int)).natAbs := by
      omega
    have hy : ((z1.y : Int) - (z2.y : Int)).natAbs = ((z2.y : Int) - (z1.y : Int)).natAbs := by
      omega
    simp only [is_adjacent_zone, hx, hy]
  · simp only [is_adjacent_zone, decide_eq_true_eq]
    omega

/-- C10: `attack_position`'s result depends on the attacking unit only
through its `attack` stat: two attackers with equal attack produce identical
results on the same cell of the same zone, regardless of owner, position,
zone membership or health. -/
theorem attack_position_attacker_independent (u1 u2 : BioUnit) (z : Zone) (x y : Nat)
    (h : u1.attack = u2.attack) :
    attack_position u1 z x y = attack_position u2 z x y := by
  simp only [attack_position, h]

/-- C10 witness: two units differing in owner, position, health and type but
with equal attack stats give the same attack result. -/
theorem attack_position_attacker_independent_witness :
    ({ unitDefault with owner := 5, x := 0, y := 0, health := 80 } : BioUnit).attack =
      ({ unitDefault with unit_type := UnitType.Bacteria, owner := 9, x := 15, y := 15,
                          health := 1 } : BioUnit).attack ∧
    attack_position { unitDefault with owner := 5, x := 0, y := 0, health := 80 }
        { zoneDefault with grid := setCell (fun _ _ => none) 3 4 (some (CellContent.Pathogen 1 10)),
                           unit_count := 1 } 3 4 =
      attack_position { unitDefault with unit_type := UnitType.Bacteria, owner := 9, x := 15,
                                         y := 15, health := 1 }
        { zoneDefault with grid := setCell (fun _ _ => none) 3 4 (some (CellContent.Pathogen 1 10)),
                           unit_count := 1 } 3 4 :=
  ⟨by decide,
   attack_position_attacker_independent _ _
     { zoneDefault with grid := setCell (fun _ _ => none) 3 4 (some (CellContent.Pathogen 1 10)),
                        unit_count := 1 } 3 4 (by decide)⟩

/-- C6: for every in-bounds attack on a cell holding a combatant, the damage
is the attacker's attack stat minus the zone type's defense bonus saturating
at 0, the target's health drops by that damage saturating at 0, and exactly
when the resulting health is 0 the cell is cleared and `unit_count` is
decremented by 1 (saturating); otherwise the cell keeps its occupant with
the reduced health and `unit_count` is unchanged. -/
theorem attack_position_combat (u : BioUnit) (z : Zone) (x y uid h : Nat)
    (hx : x < 16) (hy : y < 16)
    (hcell : z.grid x y = some (CellContent.ImmuneCell uid h) ∨
             z.grid x y = some (CellContent.Pathogen uid h)) :
    (attack_position u z x y).err = none ∧
    ((h - (u.attack - z.zone_type.get_defense_bonus) = 0 →
        (attack_position u z x y).zone.grid x y = none ∧
        (attack_position u z x y).zone.unit_count = z.unit_count - 1) ∧
     (h - (u.attack - z.zone_type.get_defense_bonus) ≠ 0 →
        (attack_position u z x y).zone.unit_count = z.unit_count ∧
        (z.grid x y = some (CellContent.ImmuneCell uid h) →
          (attack_position u z x y).zone.grid x y =
            some (CellContent.ImmuneCell uid (h - (u.attack - z.zone_type.get_defense_bonus)))) ∧
        (z.grid x y = some (CellContent.Pathogen uid h) →
          (attack_position u z x y).zone.grid x y =
            some (CellContent.Pathogen uid (h - (u.attack - z.zone_type.get_defense_bonus)))))) := by
  rcases hcell with hc | hc <;>
    simp only [attack_position, hx, hy, and_self, not_true_eq_false, if_false, hc] <;>
    split <;>
    simp_all [setCell]

/-- C6 witness: a TCell (attack 15) attacking a pathogen with 10 health in a
Tissue zone (defense bonus 2) deals 13 damage, kills it, clears the cell and
decrements the unit count. -/
theorem attack_position_combat_witness :
    (3 < 16 ∧ 4 < 16 ∧
      ({ zoneDefault with grid := setCell (fun _ _ => none) 3 4 (some (CellContent.Pathogen 1 10)),
                          unit_count := 1 } : Zone).grid 3 4 = some (CellContent.Pathogen 1 10)) ∧
    ((attack_position unitDefault
        { zoneDefault with grid := setCell (fun _ _ => none) 3 4 (some (CellContent.Pathogen 1 10)),
                           unit_count := 1 } 3 4).err = none ∧
     (attack_position unitDefault
        { zoneDefault with grid := setCell (fun _ _ => none) 3 4 (some (CellContent.Pathogen 1 10)),
                           unit_count := 1 } 3 4).zone.grid 3 4 = none ∧
     (attack_position unitDefault
        { zoneDefault with grid := setCell (fun _ _ => none) 3 4 (some (CellContent.Pathogen 1 10)),
                           unit_count := 1 } 3 4).zone.unit_count = 0) := by
  refine ⟨⟨by decide, by decide, by decide⟩, ?_⟩
  have h := attack_position_combat unitDefault
    { zoneDefault with grid := setCell (fun _ _ => none) 3 4 (some (CellContent.Pathogen 1 10)),
                       unit_count := 1 } 3 4 1 10 (by decide) (by decide)
    (Or.inr (by decide))
  exact ⟨h.1, (h.2.1 (by decide)).1, (h.2.1 (by decide)).2⟩

/-- A Lymphatic-typed zone at the origin, otherwise the `Zone` default. -/
def lymphZone : Zone := { zoneDefault with zone_type := ZoneType.Lymphatic }

/-- C7: `calculate_spawn_cost` for a TCell (base energy cost 20) in a
Lymphatic zone (×0.8) is exactly (energy 16, antibodies 8, stem_cells 1,
nutrients 5), the last two by truncation of 16/10 and 16/3, and every
successful TCell spawn in a Lymphatic zone deducts exactly those amounts
from the acting player's reserves. -/
theorem spawn_cost_tcell_lymphatic :
    calculate_spawn_cost UnitType.TCell ZoneType.Lymphatic = ⟨16, 8, 1, 5⟩ ∧
    ∀ (p : Player) (z : Zone) (x y : Nat) (r : SpawnResult),
      z.zone_type = ZoneType.Lymphatic → spawn_unit p z 0 x y = r → r.err = none →
      r.player.energy_reserves + 16 = p.energy_reserves ∧
      r.player.antibody_reserves + 8 = p.antibody_reserves ∧
      r.player.stem_cell_reserves + 1 = p.stem_cell_reserves ∧
      r.player.nutrient_reserves + 5 = p.nutrient_reserves := by
  refine ⟨by decide, ?_⟩
  intro p z x y r hz hr herr
  unfold spawn_unit at hr
  split at hr
  · subst hr; simp at herr
  · split at hr
    · subst hr; simp at herr
    · split at hr
      · subst hr; simp at herr
      · split at hr
        · subst hr; simp at herr
        · rw [show unitTypeOfIndex 0 = some UnitType.TCell from rfl] at hr
          simp only [hz] at hr
          rw [show calculate_spawn_cost UnitType.TCell ZoneType.Lymphatic = ⟨16, 8, 1, 5⟩
                from rfl] at hr
          split at hr
          · subst hr; simp at herr
          · rename_i hca
            rw [not_not] at hca
            have h4 := of_decide_eq_true hca
            subst hr
            simp only [Player.spend_resources, hca, if_true,
              show (⟨16, 8, 1, 5⟩ : Cost).energy = 16 from rfl,
              show (⟨16, 8, 1, 5⟩ : Cost).antibodies = 8 from rfl,
              show (⟨16, 8, 1, 5⟩ : Cost).stem_cells = 1 from rfl,
              show (⟨16, 8, 1, 5⟩ : Cost).nutrients = 5 from rfl] at h4 ⊢
            refine ⟨?_, ?_, ?_, ?_⟩ <;> omega

/-- C7 witness: the default player (TCell unlocked, reserves
1000/500/100/750) spawning a TCell at (1,1) of an owned Lymphatic zone ends
with reserves 984/492/99/745. -/
theorem spawn_cost_tcell_lymphatic_witness :
    lymphZone.zone_type = ZoneType.Lymphatic ∧
    (spawn_unit playerDefault lymphZone 0 1 1).err = none ∧
    ((spawn_unit playerDefault lymphZone 0 1 1).player.energy_reserves + 16 =
        playerDefault.energy_reserves ∧
     (spawn_unit playerDefault lymphZone 0 1 1).player.antibody_reserves + 8 =
        playerDefault.antibody_reserves ∧
     (spawn_unit playerDefault lymphZone 0 1 1).player.stem_cell_reserves + 1 =
        playerDefault.stem_cell_reserves ∧
     (spawn_unit playerDefault lymphZone 0 1 1).player.nutrient_reserves + 5 =
        playerDefault.nutrient_reserves) :=
  ⟨by decide, by decide,
   spawn_cost_tcell_lymphatic.2 playerDefault lymphZone 1 1
     (spawn_unit playerDefault lymphZone 0 1 1) (by decide) rfl (by decide)⟩

/-- The entry checks shared by both system wrappers, as a predicate. -/
abbrev expand_entry_ok (s : ExpandComponents) (k : Pubkey) : Prop :=
  s.game.is_player_turn k = true ∧ s.game.is_game_active = true ∧ s.player.player_key = k

/-- The per-variant validation checks that precede the affordability check,
as a predicate (read off the corresponding variant handler). -/
abbrev variant_checks_ok (a : ExpandArgs) (s : ExpandComponents) : Prop :=
  match a.expansion_type with
  | ExpansionType.InfectionSpread =>
      s.player.faction = Faction.Pathogen ∧
      s.source_zone.owner = s.player.player_key ∧
      is_adjacent_zone s.source_zone s.target_zone = true
  | ExpansionType.ImmuneResponse =>
      s.player.faction = Faction.ImmuneSystem ∧
      s.source_zone.owner = s.player.player_key ∧
      is_adjacent_zone s.source_zone s.target_zone = true
  | ExpansionType.CreateNewZone =>
      s.game.total_zones < 64 ∧ s.target_zone.owner = pubkeyDefault ∧
      (zoneTypeOfIndex a.new_zone_type).isSome = true
  | ExpansionType.ConquerZone =>
      s.source_zone.owner = s.player.player_key ∧
      (s.target_zone.owner ≠ pubkeyDefault ∧
       s.target_zone.owner ≠ s.player.player_key) ∧
      is_adjacent_zone s.source_zone s.target_zone = true

/-- The cost computed by the selected variant (the `CreateNewZone` case with
an invalid selector never reaches a cost check and gets a dummy value). -/
def variant_cost (a : ExpandArgs) (s : ExpandComponents) : Cost :=
  match a.expansion_type with
  | ExpansionType.InfectionSpread => calculate_infection_spread_cost s.source_zone s.target_zone
  | ExpansionType.ImmuneResponse => calculate_immune_response_cost s.source_zone s.target_zone
  | ExpansionType.CreateNewZone =>
      match zoneTypeOfIndex a.new_zone_type with
      | some zt => calculate_zone_creation_cost zt s.player.faction
      | none => ⟨0, 0, 0, 0⟩
  | ExpansionType.ConquerZone => calculate_conquest_cost s.source_zone s.target_zone

lemma infection_spread_frame (s : ExpandComponents) (r : ExpandComponents)
    (e : ExpandZoneError) (h : infection_spread_expansion s = (r, some e)) : r = s := by
  simp only [infection_spread_expansion] at h
  repeat' split at h
  all_goals simp_all

lemma immune_response_frame (s : ExpandComponents) (r : ExpandComponents)
    (e : ExpandZoneError) (h : immune_response_expansion s = (r, some e)) : r = s := by
  simp only [immune_response_expansion] at h
  repeat' split at h
  all_goals simp_all

lemma create_new_zone_frame (s : ExpandComponents) (i : Nat) (r : ExpandComponents)
    (e : ExpandZoneError) (h : create_new_zone s i = (r, some e)) : r = s := by
  simp only [create_new_zone] at h
  repeat' split at h
  all_goals simp_all

lemma conquer_zone_frame (s : ExpandComponents) (r : ExpandComponents)
    (e : ExpandZoneError) (h : conquer_zone s = (r, some e)) : r = s := by
  simp only [conquer_zone] at h
  repeat' split at h
  all_goals simp_all

lemma infection_spread_insufficient (s : ExpandComponents)
    (h1 : s.player.faction = Faction.Pathogen)
    (h2 : s.source_zone.owner = s.player.player_key)
    (h3 : is_adjacent_zone s.source_zone s.target_zone = true)
    (h4 : s.player.can_afford (calculate_infection_spread_cost s.source_zone s.target_zone).energy
            (calculate_infection_spread_cost s.source_zone s.target_zone).antibodies
            (calculate_infection_spread_cost s.source_zone s.target_zone).stem_cells
            (calculate_infection_spread_cost s.source_zone s.target_zone).nutrients = false) :
    infection_spread_expansion s = (s, some ExpandZoneError.InsufficientResources) := by
  unfold infection_spread_expansion
  rw [if_neg (by simp [h1]), if_neg (by simp [h2]), if_neg (by simp [h3]),
      if_pos (by simp [h4])]

lemma immune_response_insufficient (s : ExpandComponents)
    (h1 : s.player.faction = Faction.ImmuneSystem)
    (h2 : s.source_zone.owner = s.player.player_key)
    (h3 : is_adjacent_zone s.source_zone s.target_zone = true)
    (h4 : s.player.can_afford (calculate_immune_response_cost s.source_zone s.target_zone).energy
            (calculate_immune_response_cost s.source_zone s.target_zone).antibodies
            (calculate_immune_response_cost s.source_zone s.target_zone).stem_cells
            (calculate_immune_response_cost s.source_zone s.target_zone).nutrients = false) :
    immune_response_expansion s = (s, some ExpandZoneError.InsufficientResources) := by
  unfold immune_response_expansion
  rw [if_neg (by simp [h1]), if_neg (by simp [h2]), if_neg (by simp [h3]),
      if_pos (by simp [h4])]

lemma create_new_zone_insufficient (s : ExpandComponents) (i : Nat) (zt : ZoneType)
    (h1 : s.game.total_zones < 64)
    (h2 : s.target_zone.owner = pubkeyDefault)
    (h3 : zoneTypeOfIndex i = some zt)
    (h4 : s.player.can_afford (calculate_zone_creation_cost zt s.player.faction).energy
            (calculate_zone_creation_cost zt s.player.faction).antibodies
            (calculate_zone_creation_cost zt s.player.faction).stem_cells
            (calculate_zone_creation_cost zt s.player.faction).nutrients = false) :
    create_new_zone s i = (s, some ExpandZoneError.InsufficientResources) := by
  unfold create_new_zone
  rw [if_neg (by simp [h1]), if_neg (by simp [h2]), h3]
  simp only [h4, if_pos, Bool.false_eq_true, not_false_eq_true, if_true]

lemma conquer_zone_insufficient (s : ExpandComponents)
    (h1 : s.source_zone.owner = s.player.player_key)
    (h2 : s.target_zone.owner ≠ pubkeyDefault ∧ s.target_zone.owner ≠ s.player.player_key)
    (h3 : is_adjacent_zone s.source_zone s.target_zone = true)
    (h4 : s.player.can_afford (calculate_conquest_cost s.source_zone s.target_zone).energy
            (calculate_conquest_cost s.source_zone s.target_zone).antibodies
            (calculate_conquest_cost s.source_zone s.target_zone).stem_cells
            (calculate_conquest_cost s.source_zone s.target_zone).nutrients = false) :
    conquer_zone s = (s, some ExpandZoneError.InsufficientResources) := by
  unfold conquer_zone
  rw [if_neg (by simp [h1]), if_neg (by simp [h2]), if_neg (by simp [h3]),
      if_pos (by simp [h4])]

/-- C2: every failing `ExpandZone` call — any of the four variants, any
validation failure — returns with the game, player, source zone and target
zone exactly as they were (zero mutation); and whenever the entry and
variant validations pass but the player cannot afford the variant's computed
cost, the call fails precisely with `InsufficientResources` and no mutation. -/
theorem expand_zone_atomicity (a : ExpandArgs) (s : ExpandComponents) (k : Pubkey) :
    (∀ (r : ExpandComponents) (e : ExpandZoneError),
       expand_zone_execute a s k = (r, some e) → r = s) ∧
    (expand_entry_ok s k → variant_checks_ok a s →
       s.player.can_afford (variant_cost a s).energy (variant_cost a s).antibodies
         (variant_cost a s).stem_cells (variant_cost a s).nutrients = false →
       expand_zone_execute a s k = (s, some ExpandZoneError.InsufficientResources)) := by
  constructor
  · intro r e h
    unfold expand_zone_execute at h
    split at h
    · simp_all
    · split at h
      · simp_all
      · split at h
        · simp_all
        · cases hType : a.expansion_type <;> rw [hType] at h
          · exact infection_spread_frame s r e h
          · exact immune_response_frame s r e h
          · exact create_new_zone_frame s a.new_zone_type r e h
          · exact conquer_zone_frame s r e h
  · intro hentry hchecks hafford
    obtain ⟨he1, he2, he3⟩ := hentry
    unfold expand_zone_execute
    rw [if_neg (by simp [he1]), if_neg (by simp [he2]), if_neg (by simp [he3])]
    unfold variant_checks_ok at hchecks
    unfold variant_cost at hafford
    cases hType : a.expansion_type <;> simp only [hType] at hchecks hafford
    · exact infection_spread_insufficient s hchecks.1 hchecks.2.1 hchecks.2.2 hafford
    · exact immune_response_insufficient s hchecks.1 hchecks.2.1 hchecks.2.2 hafford
    · obtain ⟨zt, hzt⟩ := Option.isSome_iff_exists.mp hchecks.2.2
      rw [hzt] at hafford
      exact create_new_zone_insufficient s a.new_zone_type zt hchecks.1 hchecks.2.1 hzt hafford
    · exact conquer_zone_insufficient s hchecks.1 hchecks.2.1 hchecks.2.2 hafford

/-- A bundle whose pathogen player passes every InfectionSpread validation
but has empty reserves. -/
def insolventExpand : ExpandComponents where
  game := { gameDefault with game_state := GameState.Active, player1 := 3, player2 := 4 }
  player := { playerDefault with player_key := 3, faction := Faction.Pathogen,
                                 energy_reserves := 0, nutrient_reserves := 0 }
  source_zone := { zoneDefault with owner := 3, x := 0, y := 0 }
  target_zone := { zoneDefault with x := 1, y := 0 }

/-- C2 witness: an InfectionSpread attempt by a player passing all
validations but unable to pay aborts with `InsufficientResources` and
returns the state unchanged. -/
theorem expand_zone_atomicity_witness :
    (expand_entry_ok insolventExpand 3 ∧
     variant_checks_ok ⟨ExpansionType.InfectionSpread, 0⟩ insolventExpand ∧
     insolventExpand.player.can_afford
       (variant_cost ⟨ExpansionType.InfectionSpread, 0⟩ insolventExpand).energy
       (variant_cost ⟨ExpansionType.InfectionSpread, 0⟩ insolventExpand).antibodies
       (variant_cost ⟨ExpansionType.InfectionSpread, 0⟩ insolventExpand).stem_cells
       (variant_cost ⟨ExpansionType.InfectionSpread, 0⟩ insolventExpand).nutrients = false) ∧
    expand_zone_execute ⟨ExpansionType.InfectionSpread, 0⟩ insolventExpand 3 =
      (insolventExpand, some ExpandZoneError.InsufficientResources) :=
  ⟨⟨by decide, by decide, by decide⟩,
   (expand_zone_atomicity ⟨ExpansionType.InfectionSpread, 0⟩ insolventExpand 3).2
     (by decide) (by decide) (by decide)⟩

lemma end_turn_err (g : Game) (p : Player) (z : Zone) : (end_turn g p z).err = none := by
  simp only [end_turn]
  split <;> rfl

lemma end_turn_game (g : Game) (p : Player) (z : Zone) : (end_turn g p z).game = g.switch_turn := by
  simp only [end_turn]
  split <;> rfl

lemma play_execute_success_shape (a : PlayArgs) (s : PlayComponents) (k : Pubkey)
    (r : PlayComponents) (h : play_execute a s k = (r, none)) :
    s.game.game_state = GameState.Active ∧
    ∃ g1, r.game = check_win_conditions g1 r.player ∧
      g1.game_state = GameState.Active ∧
      g1.total_zones = s.game.total_zones ∧
      g1.player1 = s.game.player1 ∧
      g1.player2 = s.game.player2 := by
  simp only [play_execute] at h
  split at h
  · simp_all
  · split at h
    · simp_all
    · split at h
      · simp_all
      · rename_i h1 h2 h3
        rw [not_not] at h2
        have hActive : s.game.game_state = GameState.Active := by
          simpa [Game.is_game_active] using h2
        refine ⟨hActive, ?_⟩
        cases hact : a.action <;> simp only [hact] at h
        case SpawnUnit =>
          split at h
          · simp_all
          · have hr := congrArg Prod.fst h
            simp only at hr
            subst hr
            exact ⟨s.game, rfl, hActive, rfl, rfl, rfl⟩
        case MoveUnit =>
          cases hu : s.unit <;> simp only [hu] at h
          · have hr := congrArg Prod.fst h
            simp only at hr
            subst hr
            exact ⟨s.game, rfl, hActive, rfl, rfl, rfl⟩
          · split at h
            · simp_all
            · have hr := congrArg Prod.fst h
              simp only at hr
              subst hr
              exact ⟨s.game, rfl, hActive, rfl, rfl, rfl⟩
        case AttackPosition =>
          cases hu : s.unit <;> simp only [hu] at h
          · have hr := congrArg Prod.fst h
            simp only at hr
            subst hr
            exact ⟨s.game, rfl, hActive, rfl, rfl, rfl⟩
          · split at h
            · simp_all
            · have hr := congrArg Prod.fst h
              simp only at hr
              subst hr
              exact ⟨s.game, rfl, hActive, rfl, rfl, rfl⟩
        case UseSpecialAbility =>
          cases hu : s.unit <;> simp only [hu] at h
          · have hr := congrArg Prod.fst h
            simp only at hr
            subst hr
            exact ⟨s.game, rfl, hActive, rfl, rfl, rfl⟩
          · split at h
            · simp_all
            · have hr := congrArg Prod.fst h
              simp only at hr
              subst hr
              exact ⟨s.game, rfl, hActive, rfl, rfl, rfl⟩
        case EndTurn =>
          split at h
          · rename_i e heq
            rw [end_turn_err] at heq
            cases heq
          · have hr := congrArg Prod.fst h
            simp only at hr
            subst hr
            refine ⟨(end_turn s.game s.player s.zone).game, rfl, ?_, ?_, ?_, ?_⟩ <;>
              rw [end_turn_game] <;> simp [Game.switch_turn, hActive]

lemma check_win_threshold (g : Game) (p : Player) :
    win_threshold (check_win_conditions g p) = win_threshold g := by
  simp only [check_win_conditions, Game.end_game, win_threshold]
  split <;> rfl

lemma check_win_current_turn (g : Game) (p : Player) :
    (check_win_conditions g p).current_turn = g.current_turn := by
  simp only [check_win_conditions, Game.end_game]
  split <;> rfl

lemma check_win_turn_number (g : Game) (p : Player) :
    (check_win_conditions g p).turn_number = g.turn_number := by
  simp only [check_win_conditions, Game.end_game]
  split <;> rfl

/-- C1 (amended): after every successful Play action — the only surface that
invokes `check_win_conditions` — if the acting player's controlled-zone
count is at or above the win threshold, the returned game is `Finished`
with that player's seat declared winner.  (The four ExpandZone variants do
not run the win evaluator; see the counterexample.) -/
theorem play_win_evaluator (a : PlayArgs) (s : PlayComponents) (k : Pubkey)
    (r : PlayComponents) (h : play_execute a s k = (r, none))
    (hwin : win_threshold r.game ≤ r.player.controlled_zones) :
    (∃ w, r.game.game_state = GameState.Finished w) ∧
    (r.player.player_id = 1 → r.game.game_state = GameState.Finished GameWinner.Player1) ∧
    (r.player.player_id = 2 → r.game.game_state = GameState.Finished GameWinner.Player2) := by
  obtain ⟨hA, g1, hg, hgs, htz, hp1, hp2⟩ := play_execute_success_shape a s k r h
  rw [hg, check_win_threshold] at hwin
  refine ⟨?_, ?_, ?_⟩
  · rw [hg]
    simp only [check_win_conditions, hwin, if_pos, Game.end_game]
    exact ⟨_, rfl⟩
  · intro hid
    rw [hg]
    simp only [check_win_conditions, hwin, if_pos, hid, Game.end_game]
  · intro hid
    rw [hg]
    simp only [check_win_conditions, hwin, if_pos, hid, Game.end_game]
    rfl

/-- An active 16-zone game whose current player (seat 1, key 7) already
controls 12 zones, with an `EndTurn` on a zone they do not own. -/
def winState : PlayComponents where
  game := { gameDefault with game_state := GameState.Active, player1 := 7, player2 := 8,
                             current_turn := 1, total_zones := 16 }
  player := { playerDefault with player_id := 1, player_key := 7, controlled_zones := 12 }
  zone := zoneDefault
  unit := none

/-- The `EndTurn` argument record. -/
def endTurnArgs : PlayArgs := ⟨ActionType.EndTurn, 0, 0, 0, 0⟩

/-- C1 witness: the concrete `EndTurn` above succeeds, meets the threshold
(12 ≥ 16·3/4) and ends the game with seat 1 the winner. -/
theorem play_win_evaluator_witness :
    (play_execute endTurnArgs winState 7).2 = none ∧
    win_threshold (play_execute endTurnArgs winState 7).1.game ≤
      (play_execute endTurnArgs winState 7).1.player.controlled_zones ∧
    (play_execute endTurnArgs winState 7).1.player.player_id = 1 ∧
    (play_execute endTurnArgs winState 7).1.game.game_state =
      GameState.Finished GameWinner.Player1 :=
  ⟨by decide, by decide, by decide,
   (play_win_evaluator endTurnArgs winState 7 (play_execute endTurnArgs winState 7).1
      rfl (by decide)).2.1 (by decide)⟩

/-- A 15-zone active game whose player (key 7) controls 11 zones and can
afford `CreateNewZone`. -/
def expandWinSetup : ExpandComponents where
  game := { gameDefault with game_state := GameState.Active, player1 := 7, player2 := 8,
                             current_turn := 1, total_zones := 15 }
  player := { playerDefault with player_key := 7, controlled_zones := 11 }
  source_zone := zoneDefault
  target_zone := zoneDefault

/-- C1 counterexample: a successful `CreateNewZone` expansion leaves the
acting player's controlled-zone count (12) at the win threshold
(16·3/4 = 12) of the updated game, yet the game is still `Active` — no win
evaluator runs on the expansion surface, refuting the claim that it runs
after every action including the four zone-expansion variants. -/
theorem expand_zone_no_win_evaluator_counterexample :
    (expand_zone_execute ⟨ExpansionType.CreateNewZone, 0⟩ expandWinSetup 7).2 = none ∧
    win_threshold (expand_zone_execute ⟨ExpansionType.CreateNewZone, 0⟩ expandWinSetup 7).1.game ≤
      (expand_zone_execute ⟨ExpansionType.CreateNewZone, 0⟩ expandWinSetup 7).1.player.controlled_zones ∧
    (expand_zone_execute ⟨ExpansionType.CreateNewZone, 0⟩ expandWinSetup 7).1.game.game_state =
      GameState.Active := by
  refine ⟨by decide, by decide, by decide⟩

/-- C4: with `total_zones = 16` the win check uses the truncating formula
`16*3/4 = 12`: a successful Play action leaving the acting player at 12
controlled zones finishes the game with that player's seat as winner (and
the winner pubkey set to that seat's key), while at 11 the game stays
`Active`. -/
theorem win_check_sixteen_zones (a : PlayArgs) (s : PlayComponents) (k : Pubkey)
    (r : PlayComponents) (h : play_execute a s k = (r, none))
    (h16 : s.game.total_zones = 16) :
    (r.player.controlled_zones = 12 →
       (r.player.player_id = 1 →
          r.game.game_state = GameState.Finished GameWinner.Player1 ∧
          r.game.winner = r.game.player1) ∧
       (r.player.player_id = 2 →
          r.game.game_state = GameState.Finished GameWinner.Player2 ∧
          r.game.winner = r.game.player2)) ∧
    (r.player.controlled_zones = 11 → r.game.game_state = GameState.Active) := by
  obtain ⟨hA, g1, hg, hgs, htz, hp1, hp2⟩ := play_execute_success_shape a s k r h
  have hthr : win_threshold g1 = 12 := by
    simp only [win_threshold, htz, h16, u32Mod, u16Mod]
  constructor
  · intro h12
    constructor <;> intro hid <;> rw [hg] <;>
      simp only [check_win_conditions, hthr, h12, hid, Game.end_game] <;>
      norm_num
  · intro h11
    rw [hg]
    simp only [check_win_conditions, hthr, h11]
    norm_num
    exact hgs

/-- C4 witness: the concrete 16-zone, 12-controlled `EndTurn` scenario ends
`Finished Player1` with the winner pubkey set to seat 1's key. -/
theorem win_check_sixteen_zones_witness :
    (play_execute endTurnArgs winState 7).2 = none ∧
    winState.game.total_zones = 16 ∧
    (play_execute endTurnArgs winState 7).1.player.controlled_zones = 12 ∧
    (play_execute endTurnArgs winState 7).1.game.game_state =
      GameState.Finished GameWinner.Player1 ∧
    (play_execute endTurnArgs winState 7).1.game.winner = 7 := by
  refine ⟨by decide, by decide, by decide, ?_, ?_⟩
  · exact ((win_check_sixteen_zones endTurnArgs winState 7
      (play_execute endTurnArgs winState 7).1 rfl (by decide)).1 (by decide)).1 (by decide) |>.1
  · have h := ((win_check_sixteen_zones endTurnArgs winState 7
      (play_execute endTurnArgs winState 7).1 rfl (by decide)).1 (by decide)).1 (by decide) |>.2
    rw [h]
    decide

/-- C5: a successful `EndTurn` played on a zone the acting player does not
own leaves all four zone resource counters and all four player reserves
unchanged, yet still flips `current_turn` between 1 and 2 and increments
`turn_number` by exactly 1 (as a wrapping `u32`; exact `+1` whenever no
wrap occurs). -/
theorem end_turn_foreign_zone (a : PlayArgs) (s : PlayComponents) (k : Pubkey)
    (r : PlayComponents) (ha : a.action = ActionType.EndTurn)
    (h : play_execute a s k = (r, none))
    (howner : s.zone.owner ≠ s.player.player_key) :
    (r.zone.energy = s.zone.energy ∧ r.zone.antibodies = s.zone.antibodies ∧
     r.zone.stem_cells = s.zone.stem_cells ∧ r.zone.nutrients = s.zone.nutrients) ∧
    (r.player.energy_reserves = s.player.energy_reserves ∧
     r.player.antibody_reserves = s.player.antibody_reserves ∧
     r.player.stem_cell_reserves = s.player.stem_cell_reserves ∧
     r.player.nutrient_reserves = s.player.nutrient_reserves) ∧
    r.game.current_turn = (if s.game.current_turn = 1 then 2 else 1) ∧
    r.game.turn_number = (s.game.turn_number + 1) % u32Mod ∧
    (s.game.turn_number < u32Max → r.game.turn_number = s.game.turn_number + 1) := by
  simp only [play_execute, ha] at h
  split at h
  · simp_all
  · split at h
    · simp_all
    · split at h
      · simp_all
      · have he : end_turn s.game s.player s.zone =
            ⟨s.game.switch_turn, s.player, s.zone, none⟩ := by
          simp only [end_turn]
          rw [if_neg howner]
        rw [he] at h
        simp only [] at h
        have hr := congrArg Prod.fst h
        simp only at hr
        subst hr
        refine ⟨⟨rfl, rfl, rfl, rfl⟩, ⟨rfl, rfl, rfl, rfl⟩, ?_, ?_, ?_⟩
        · rw [check_win_current_turn]
          rfl
        · rw [check_win_turn_number]
          rfl
        · intro hlt
          rw [check_win_turn_number]
          simp only [Game.switch_turn]
          have : s.game.turn_number + 1 < u32Mod := by
            simp only [u32Max] at hlt
            simp only [u32Mod]
            omega
          exact Nat.mod_eq_of_lt this

/-- A state for an `EndTurn` on a zone owned by nobody (hence not by the
acting player, key 7). -/
def foreignZoneState : PlayComponents where
  game := { gameDefault with game_state := GameState.Active, player1 := 7, player2 := 8,
                             current_turn := 1, turn_number := 5 }
  player := { playerDefault with player_id := 1, player_key := 7 }
  zone := zoneDefault
  unit := none

/-- C5 witness: the concrete foreign-zone `EndTurn` keeps the zone's and
player's resources and advances the turn from (1, 5) to (2, 6). -/
theorem end_turn_foreign_zone_witness :
    ((play_execute endTurnArgs foreignZoneState 7).2 = none ∧
     foreignZoneState.zone.owner ≠ foreignZoneState.player.player_key) ∧
    ((play_execute endTurnArgs foreignZoneState 7).1.zone.energy =
        foreignZoneState.zone.energy ∧
     (play_execute endTurnArgs foreignZoneState 7).1.player.energy_reserves =
        foreignZoneState.player.energy_reserves ∧
     (play_execute endTurnArgs foreignZoneState 7).1.game.current_turn = 2 ∧
     (play_execute endTurnArgs foreignZoneState 7).1.game.turn_number = 6) := by
  refine ⟨⟨by decide, by decide⟩, ?_⟩
  have h := end_turn_foreign_zone endTurnArgs foreignZoneState 7
    (play_execute endTurnArgs foreignZoneState 7).1 (by decide) rfl (by decide)
  exact ⟨h.1.1, h.2.1.1, by rw [h.2.2.1]; decide, by rw [h.2.2.2.2 (by decide)]; decide⟩

/-- C9: a Play call with action `MoveUnit`, `AttackPosition` or
`UseSpecialAbility` and no unit supplied succeeds (once the turn,
game-active and identity checks pass) and does nothing to the player and
zone — but the win evaluator still runs on the unchanged state. -/
theorem play_missing_unit_noop (a : PlayArgs) (s : PlayComponents) (k : Pubkey)
    (ha : a.action = ActionType.MoveUnit ∨ a.action = ActionType.AttackPosition ∨
          a.action = ActionType.UseSpecialAbility)
    (hu : s.unit = none)
    (h1 : s.game.is_player_turn k = true) (h2 : s.game.is_game_active = true)
    (h3 : s.player.player_key = k) :
    play_execute a s k = ({ s with game := check_win_conditions s.game s.player }, none) := by
  unfold play_execute
  rw [if_neg (by simp [h1]), if_neg (by simp [h2]), if_neg (by simp [h3])]
  rcases ha with ha | ha | ha <;> rw [ha] <;> simp only [hu]

/-- A state where the acting player (seat 1, key 7) already controls 12 of
16 zones and submits an `AttackPosition` with no unit account. -/
def missingUnitState : PlayComponents where
  game := { gameDefault with game_state := GameState.Active, player1 := 7, player2 := 8,
                             current_turn := 1, total_zones := 16 }
  player := { playerDefault with player_id := 1, player_key := 7, controlled_zones := 12 }
  zone := zoneDefault
  unit := none

/-- The `AttackPosition` argument record used by the missing-unit witness. -/
def attackArgs : PlayArgs := ⟨ActionType.AttackPosition, 3, 3, 0, 0⟩

/-- C9 witness: the unit-less `AttackPosition` above succeeds untouched and
the win evaluator still finishes the game on the unchanged state. -/
theorem play_missing_unit_noop_witness :
    (attackArgs.action = ActionType.AttackPosition ∧ missingUnitState.unit = none ∧
     missingUnitState.game.is_player_turn 7 = true ∧
     missingUnitState.game.is_game_active = true ∧
     missingUnitState.player.player_key = 7) ∧
    play_execute attackArgs missingUnitState 7 =
      ({ missingUnitState with
          game := check_win_conditions missingUnitState.game missingUnitState.player }, none) ∧
    (check_win_conditions missingUnitState.game missingUnitState.player).game_state =
      GameState.Finished GameWinner.Player1 :=
  ⟨⟨by decide, by decide, by decide, by decide, by decide⟩,
   play_missing_unit_noop attackArgs missingUnitState 7 (Or.inr (Or.inl (by decide)))
     (by decide) (by decide) (by decide) (by decide),
   by decide⟩

def joinScenario1 (a : Pubkey) : JoinComponents × Option JoinGameError :=
  join_game_execute ⟨gameDefault, playerDefault, none⟩ a 0

def joinScenario2 (a b : Pubkey) (z : Zone) : JoinComponents × Option JoinGameError :=
  join_game_execute ⟨(joinScenario1 a).1.game, playerDefault, some z⟩ b 1

theorem join_second_player_seeds_zone (a b : Pubkey) (z : Zone)
    (ha : a ≠ pubkeyDefault) (hb : b ≠ pubkeyDefault) (hab : a ≠ b) :
    (joinScenario1 a).2 = none ∧
    (joinScenario2 a b z).2 = none ∧
    (joinScenario2 a b z).1.game.game_state = GameState.Active ∧
    (joinScenario2 a b z).1.game.current_turn = 1 ∧
    (joinScenario2 a b z).1.starting_zone =
      some { z with zone_id := 0, x := 2, y := 2, owner := b, is_controlled := true,
                    zone_type := ZoneType.Tissue } ∧
    (joinScenario2 a b z).1.player.controlled_zones = 1 ∧
    (joinScenario2 a b z).1.player.faction = Faction.Pathogen ∧
    (joinScenario1 a).1.player.controlled_zones = 0 := by
  have ha0 : (0 : Nat) ≠ a := Ne.symm ha
  have hb0 : (0 : Nat) ≠ b := Ne.symm hb
  have ha0' : a ≠ (0 : Nat) := ha
  have hb0' : b ≠ (0 : Nat) := hb
  have hba : b ≠ a := Ne.symm hab
  unfold joinScenario2 joinScenario1 join_game_execute
  simp +decide [ha0, hb0, ha0', hb0', hab, hba, gameDefault, playerDefault, pubkeyDefault,
    Player.unlock_unit]

/-- C3 witness: the scenario at concrete keys A = 1 (ImmuneSystem first
joiner) and B = 2 (Pathogen second joiner) with the default zone supplied
on the second join. -/
theorem join_second_player_seeds_zone_witness :
    ((1 : Pubkey) ≠ pubkeyDefault ∧ (2 : Pubkey) ≠ pubkeyDefault ∧ (1 : Pubkey) ≠ 2) ∧
    ((joinScenario2 1 2 zoneDefault).2 = none ∧
     (joinScenario2 1 2 zoneDefault).1.game.game_state = GameState.Active ∧
     (joinScenario2 1 2 zoneDefault).1.game.current_turn = 1 ∧
     (joinScenario2 1 2 zoneDefault).1.starting_zone =
       some { zoneDefault with zone_id := 0, x := 2, y := 2, owner := 2,
                               is_controlled := true, zone_type := ZoneType.Tissue } ∧
     (joinScenario2 1 2 zoneDefault).1.player.controlled_zones = 1) :=
  ⟨⟨by decide, by decide, by decide⟩,
   let h := join_second_player_seeds_zone 1 2 zoneDefault (by decide) (by decide) (by decide)
   ⟨h.2.1, h.2.2.1, h.2.2.2.1, h.2.2.2.2.1, h.2.2.2.2.2.1⟩⟩

/-- C3 counterexample: in the fresh-game scenario with A = 1 (ImmuneSystem,
joins first) and B = 2 (Pathogen, joins second, supplying the starting
zone), the seeded starting zone is owned by B — not A — and typed Tissue —
not Lymphatic — and it is B's `controlled_zones`, not A's, that becomes 1
(A's player record still has 0), refuting the claim as stated. -/
theorem join_seeded_zone_counterexample :
    (joinScenario1 1).2 = none ∧
    (joinScenario2 1 2 zoneDefault).2 = none ∧
    (joinScenario2 1 2 zoneDefault).1.game.game_state = GameState.Active ∧
    (joinScenario2 1 2 zoneDefault).1.game.current_turn = 1 ∧
    ((joinScenario2 1 2 zoneDefault).1.starting_zone.map Zone.owner = some 2 ∧
     (joinScenario2 1 2 zoneDefault).1.starting_zone.map Zone.owner ≠ some 1 ∧
     (joinScenario2 1 2 zoneDefault).1.starting_zone.map Zone.zone_type =
       some ZoneType.Tissue ∧
     (joinScenario2 1 2 zoneDefault).1.starting_zone.map Zone.zone_type ≠
       some ZoneType.Lymphatic) ∧
    (joinScenario1 1).1.player.controlled_zones = 0 ∧
    (joinScenario2 1 2 zoneDefault).1.player.controlled_zones = 1 := by
  refine ⟨by decide, by decide, by decide, by decide, ⟨?_, ?_, ?_, ?_⟩, by decide, by decide⟩ <;>
    decide
